import Mathlib

/-
Shallow embedding of pixlet's applet loading-and-execution engine
(runtime/applet.go): module-graph loading with cycle detection, the
Run result-typing logic, schema-handler dispatch and the module registry.

The embedded Starlark interpreter (go.starlark.net) is external to the
repository; it is modelled as a black box that, for a given source unit,
performs a fixed sequence of load() calls and then either fails or yields
a fixed mapping of exported bindings, and that maps any function call to a
fixed outcome (value, evaluation error, plain error, or panic).  The
schema package of the repository is not part of the sources under
verification; its small surface (Schema value, FromStarlark, EncodeOptions,
the return-kind constants) is modelled from the spec where noted.
-/

/-- Paths of source units inside the virtual file set.  Paths in the model
are taken to be already in normalized (filepath.Clean) form; the Go
standard library's filepath.Clean is external and acts as the identity on
normalized paths. -/
abbrev FsPath := String

/-- Go standard library filepath.Clean, restricted to the normalized paths
the model works with (identity). -/
def cleanPath (p : FsPath) : FsPath := p

/-- A starlark function value (`*starlark.Function`): its name, declared
source position and parameter count are all the engine inspects. -/
structure FuncVal where
  name : String
  position : String
  numParams : Nat
deriving Repr, DecidableEq

/-- Modelled from the spec: the declared return kind of a schema handler
(the constants schema.ReturnOptions / ReturnSchema / ReturnString of the
schema package, which is not under src/). -/
inductive ReturnKind where
  | returnOptions
  | returnSchema
  | returnString
deriving Repr, DecidableEq

/-- Modelled from the spec: a handler registration of the schema package
(not under src/): a handler name maps to a function value and a declared
return kind. -/
structure HandlerReg where
  function : FuncVal
  returnType : ReturnKind
deriving Repr, DecidableEq

/-- Modelled from the spec: a Schema value of the schema package (not
under src/): handler registrations plus metadata; only the handler table
is relevant to the engine. -/
structure SchemaVal where
  handlers : List (String × HandlerReg)
deriving Repr, DecidableEq

/-- A starlark value, as far as the engine inspects values: values
implementing render_runtime.Rootable (carrying the render root they
convert to, abstracted as a number), lists, strings, dicts (the applet
config), function values, capability-module objects, schema values and
schema options (struct values recognized by the schema package), and
anything else, known only by its type name. -/
inductive StarValue where
  | rootable (typeName : String) (root : Nat)
  | list (elems : List StarValue)
  | str (s : String)
  | dict (entries : List (String × String))
  | func (f : FuncVal)
  | module (name : String)
  | schemaVal (sch : SchemaVal)
  | schemaOption (display : String) (value : String)
  | other (typeName : String)

/-- starlark.Value.Type(): the type name reported by a value. -/
def StarValue.typeName : StarValue → String
  | .rootable tn _ => tn
  | .list _ => "list"
  | .str _ => "string"
  | .dict _ => "dict"
  | .func _ => "function"
  | .module _ => "module"
  | .schemaVal _ => "struct"
  | .schemaOption _ _ => "struct"
  | .other tn => tn

/-- starlark.AsString: yields the string value of a starlark.String
(string-like values); every other value is not string-like. -/
def StarValue.asString : StarValue → Option String
  | .str s => some s
  | _ => none

/-- Whether a value implements render_runtime.Rootable. -/
def StarValue.isRootable : StarValue → Bool
  | .rootable _ _ => true
  | _ => false

/-- The exported bindings of an evaluated source unit
(starlark.StringDict). -/
abbrev Exports := List (String × StarValue)

/-- The Go pattern `globals[name].(*starlark.Function)`: look a name up in
an export mapping and keep it only if it is a function value. -/
def getFunction (exports : Exports) (name : String) : Option FuncVal :=
  match exports.lookup name with
  | some (.func f) => some f
  | _ => none

/-- The result of a Go function that returns (value, error) and may in
addition terminate abnormally (panic). -/
inductive GoResult (α : Type) where
  | ok (val : α)
  | goError (msg : String)
  | panicked (msg : String)
deriving Repr, DecidableEq

/-- The outcome the embedded interpreter produces for one function
invocation (starlark.Call): a value, a structured evaluation error
carrying a backtrace, any other error, or a Go panic. -/
inductive InterpOutcome where
  | value (v : StarValue)
  | evalError (backtrace : String)
  | otherError (msg : String)
  | panic (msg : String)

/-- The interpreter invocation inside Applet.Call together with its error
classification, before the enclosing recover: an evaluation error is
reported through its backtrace, any other interpreter error is prefixed
with the function's name and declared position, and a panic propagates. -/
def rawCall (callable : FuncVal) (oc : InterpOutcome) : GoResult StarValue :=
  match oc with
  | .value v => .ok v
  | .evalError backtrace => .goError backtrace
  | .otherError msg => .goError ("in " ++ callable.name ++ " at " ++ callable.position ++ ": " ++ msg)
  | .panic m => .panicked m

/-- The deferred recover at the top of Applet.Call: a panic is converted
into an error naming the applet identifier and the panic message; normal
results pass through. -/
def goRecover (id : String) : GoResult α → GoResult α
  | .panicked m => .goError ("panic while running " ++ id ++ ": " ++ m)
  | r => r

/-- Modelled from the spec: the designated schema-constructor name
(schema.SchemaFunctionName of the schema package, not under src/). -/
def schemaFunctionName : String := "get_schema"

/-- Modelled from the spec: the JSON serialization of a Schema value
(json.Marshal on the schema package's Schema struct, not under src/):
a deterministic serialized document listing each handler name with its
declared return kind. -/
def returnKindName : ReturnKind → String
  | .returnOptions => "options"
  | .returnSchema => "schema"
  | .returnString => "string"

/-- Modelled from the spec: serialization of one handler table entry. -/
def handlerToJSON (e : String × HandlerReg) : String :=
  "\x7b\"name\":\"" ++ e.1 ++ "\",\"handler\":\"" ++ e.2.function.name
    ++ "\",\"type\":\"" ++ returnKindName e.2.returnType ++ "\"\x7d"

/-- Modelled from the spec: JSON encoding of a whole Schema value. -/
def schemaToJSON (sch : SchemaVal) : String :=
  "\x7b\"handlers\":[" ++ String.intercalate "," (sch.handlers.map handlerToJSON) ++ "]\x7d"

/-- Modelled from the spec: schema.FromStarlark of the schema package
(not under src/): parse the value returned by a schema constructor into a
Schema, resolving handler references against the given export mapping;
any other value is a parse error naming the value's type. -/
def schemaFromStarlark (v : StarValue) (globals : Exports) : Except String SchemaVal :=
  match v with
  | .schemaVal sch => .ok sch
  | v => .error ("expected schema, found " ++ v.typeName)

/-- Modelled from the spec: serialization of one selectable option. -/
def optionToJSON (display value : String) : String :=
  "\x7b\"display\":\"" ++ display ++ "\",\"value\":\"" ++ value ++ "\"\x7d"

/-- Modelled from the spec: schema.EncodeOptions of the schema package
(not under src/): the value must be a sequence of selectable options,
JSON-encoded; any other shape is an error. -/
def encodeOptions (v : StarValue) : Except String String :=
  match v with
  | .list elems =>
    match elems.mapM (fun e => match e with
      | .schemaOption d val => some (optionToJSON d val)
      | _ => none) with
    | some opts => .ok ("[" ++ String.intercalate "," opts ++ "]")
    | none => .error ("invalid options list returned by handler")
  | v => .error ("expected a list of options, found " ++ v.typeName)

/-- One source unit's behavior under the external interpreter, as a
function of its raw bytes: the module names passed to load() during
top-level execution in order; an optional failure of top-level execution
itself (syntax or evaluation error) after those loads; the exported
bindings on success; and the outcome of invoking the unit's schema
constructor with zero arguments, when it exports one. -/
structure SourceFile where
  loads : List String
  execError : Option String
  exports : Exports
  schemaCall : InterpOutcome

/-- The virtual file set (fs.FS restricted to what the loader reads):
an association of paths to source files, listed in the lexical order in
which fs.WalkDir enumerates them. -/
abbrev VFS := List (FsPath × SourceFile)

/-- An externally supplied module override loader (ModuleLoader; the
starlark thread parameter carries no information the model tracks). -/
abbrev OverrideLoader := String → Except String Exports

/-- The Applet aggregate: identifier, optional override loader, and the
load-time state (per-unit export mappings, entry point, schema constructor
owner, parsed Schema and its cached JSON).  As in the Go struct, an empty
string for mainFile / schemaFile means "not recorded yet", mainFun and
schema are nil-able pointers, and schemaJSON is the cached serialization
(empty while unset, matching string(nil)). -/
structure Applet where
  ID : String
  loader : Option OverrideLoader := none
  globals : List (FsPath × Exports) := []
  mainFile : FsPath := ""
  mainFun : Option FuncVal := none
  schemaFile : FsPath := ""
  schema : Option SchemaVal := none
  schemaJSON : String := ""

/-- Applet.Call: invoke a callable through the interpreter, with the
deferred recover converting any panic into an error naming the applet. -/
def Applet.Call (a : Applet) (callable : FuncVal) (args : List StarValue)
    (oc : InterpOutcome) : GoResult StarValue :=
  goRecover a.ID (rawCall callable oc)

/-- The built-in module table: the switch at the bottom of loadModule.
The contents of each capability module are external to the engine; only
the set of recognized names and the invalid-module failure are modelled.
The zipfile module is re-wrapped under the name "zipfile" as in the
source. -/
def builtinLoadModule (module : String) : Except String Exports :=
  match module with
  | "render.star" => .ok [("render", .module "render")]
  | "animation.star" => .ok [("animation", .module "animation")]
  | "schema.star" => .ok [("schema", .module "schema")]
  | "cache.star" => .ok [("cache", .module "cache")]
  | "secret.star" => .ok [("secret", .module "secret")]
  | "xpath.star" => .ok [("xpath", .module "xpath")]
  | "compress/gzip.star" => .ok [("gzip", .module "gzip")]
  | "compress/zipfile.star" => .ok [("zipfile", .module "zipfile")]
  | "encoding/base64.star" => .ok [("base64", .module "base64")]
  | "encoding/csv.star" => .ok [("csv", .module "csv")]
  | "encoding/json.star" => .ok [("json", .module "json")]
  | "hash.star" => .ok [("hash", .module "hash")]
  | "hmac.star" => .ok [("hmac", .module "hmac")]
  | "http.star" => .ok [("http", .module "http")]
  | "html.star" => .ok [("html", .module "html")]
  | "humanize.star" => .ok [("humanize", .module "humanize")]
  | "math.star" => .ok [("math", .module "math")]
  | "re.star" => .ok [("re", .module "re")]
  | "sunrise.star" => .ok [("sunrise", .module "sunrise")]
  | "time.star" => .ok [("time", .module "time")]
  | "random.star" => .ok [("random", .module "random")]
  | "qrcode.star" => .ok [("qrcode", .module "qrcode")]
  | "assert.star" => .ok [("assert", .module "assert")]
  | _ => .error ("invalid module: " ++ module)

/-- The import names the built-in table recognizes, in source order. -/
def builtinModuleNames : List String :=
  ["render.star", "animation.star", "schema.star", "cache.star",
   "secret.star", "xpath.star", "compress/gzip.star",
   "compress/zipfile.star", "encoding/base64.star", "encoding/csv.star",
   "encoding/json.star", "hash.star", "hmac.star", "http.star",
   "html.star", "humanize.star", "math.star", "re.star", "sunrise.star",
   "time.star", "random.star", "qrcode.star", "assert.star"]

/-- Applet.loadModule: the Module Registry.  A configured override loader
is consulted first and its result returned on success; on any error from
the override, resolution falls through to the built-in table. -/
def Applet.loadModule (a : Applet) (module : String) : Except String Exports :=
  match a.loader with
  | some loader =>
    match loader module with
    | .ok mod => .ok mod
    | .error _ => builtinLoadModule module
  | none => builtinLoadModule module

/-- The tail of ensureLoaded once a source unit has been executed: record
its exports under its path, then check for a main function (failing on a
duplicate across files) and for a schema constructor (failing on a
duplicate; otherwise invoking it immediately with zero arguments, parsing
its return value into a Schema and pre-serializing it). -/
def finishSchema (a : Applet) (path : FsPath) (file : SourceFile) : Except String Applet :=
  match getFunction file.exports schemaFunctionName with
  | none => .ok a
  | some schemaFun =>
    if a.schemaFile != "" then
      .error ("multiple files with a " ++ schemaFunctionName ++ "() function:\n- "
        ++ path ++ "\n- " ++ a.schemaFile)
    else
      let a := { a with schemaFile := path }
      match a.Call schemaFun [] file.schemaCall with
      | .panicked m =>
        -- unreachable: Call recovers panics; ensureLoaded's own deferred
        -- recover would turn an escaping panic into this error
        .error ("panic while executing " ++ a.ID ++ ": " ++ m)
      | .goError e => .error ("calling schema function for " ++ a.ID ++ ": " ++ e)
      | .ok schemaVal =>
        match schemaFromStarlark schemaVal file.exports with
        | .error e => .error ("parsing schema for " ++ a.ID ++ ": " ++ e)
        | .ok sch => .ok { a with schema := some sch, schemaJSON := schemaToJSON sch }

/-- Recording a just-executed source unit: store its exports, then the
main-function bookkeeping (duplicate-main failure naming both files) and
the schema-constructor bookkeeping. -/
def finishFile (a : Applet) (path : FsPath) (file : SourceFile) : Except String Applet :=
  let a := { a with globals := a.globals ++ [(path, file.exports)] }
  match getFunction file.exports "main" with
  | some mainFun =>
    if a.mainFile != "" then
      .error ("multiple files with a main() function:\n- " ++ path ++ "\n- " ++ a.mainFile)
    else
      finishSchema { a with mainFile := path, mainFun := some mainFun } path file
  | none => finishSchema a path file

/-- The two mutually recursive activities of the depth-first loader:
ensuring one source unit is loaded, and resolving the pending load()
calls of a unit being executed.  Folding them into one recursion lets the
loader recurse structurally on its depth bound. -/
inductive LoadJob where
  | ensure (path : FsPath)
  | execLoads (loads : List String)

/-- The depth-first loader; the two LoadJob cases are ensureLoaded and
the thread.Load resolution loop of the source, described at the wrappers
ensureLoaded and execLoads below.  The fuel argument only bounds the
recursion depth; cycle detection keeps it from ever being exhausted when
the top-level load supplies loadFuel. -/
def loaderStep (fsys : VFS) : Nat → LoadJob → List FsPath → Applet → Except String Applet
  | 0, _, _, _ => .error "load recursion limit exceeded"
  | fuel + 1, .ensure path, currentlyLoading, a =>
    let path := cleanPath path
    if (a.globals.lookup path).isSome then
      .ok a
    else if currentlyLoading.contains path then
      .error ("circular dependency detected: "
        ++ String.intercalate " -> " currentlyLoading ++ " -> " ++ path)
    else
      let currentlyLoading := currentlyLoading ++ [path]
      match fsys.lookup path with
      | none => .error ("reading " ++ path ++ ": file does not exist")
      | some file =>
        match loaderStep fsys fuel (.execLoads file.loads) currentlyLoading a with
        | .error e => .error ("starlark.ExecFile: " ++ e)
        | .ok a =>
          match file.execError with
          | some e => .error ("starlark.ExecFile: " ++ e)
          | none => finishFile a path file
  | fuel + 1, .execLoads loads, currentlyLoading, a =>
    match loads with
    | [] => .ok a
    | module :: rest =>
      let modulePath := cleanPath module
      let step : Except String Applet :=
        if (fsys.lookup modulePath).isSome then
          match loaderStep fsys fuel (.ensure modulePath) currentlyLoading a with
          | .error e => .error e
          | .ok a =>
            match a.globals.lookup modulePath with
            | none => .error ("module " ++ modulePath ++ " not loaded")
            | some _ => .ok a
        else
          match a.loadModule module with
          | .error e => .error e
          | .ok _ => .ok a
      match step with
      | .error e => .error ("cannot load " ++ module ++ ": " ++ e)
      | .ok a => loaderStep fsys fuel (.execLoads rest) currentlyLoading a

/-- ensureLoaded: depth-first load of one source unit.  Normalize the
path; return immediately if already resolved; fail with the
circular-dependency error enumerating the load chain if the path is
already being loaded; otherwise push the path onto the chain, read the
file, execute it (resolving its load() calls through execLoads), and
record its exports, entry point and schema constructor. -/
def ensureLoaded (fsys : VFS) (fuel : Nat) (path : FsPath)
    (currentlyLoading : List FsPath) (a : Applet) : Except String Applet :=
  loaderStep fsys fuel (.ensure path) currentlyLoading a

/-- The load() calls a source unit performs during execution, resolved in
order through the thread's load function: a module naming another file of
the virtual file set is loaded recursively via ensureLoaded with the
current load chain; any other name goes to the Module Registry.  A load
failure aborts execution; the interpreter reports it as a cannot-load
evaluation error (go.starlark.net's formatting of failed load statements),
which ensureLoaded then wraps as a starlark.ExecFile error. -/
def execLoads (fsys : VFS) (fuel : Nat) (loads : List String)
    (currentlyLoading : List FsPath) (a : Applet) : Except String Applet :=
  loaderStep fsys fuel (.execLoads loads) currentlyLoading a

/-- strings.HasSuffix, stated on the character lists underlying the
strings. -/
def hasSuffix (s suffix : String) : Bool :=
  suffix.data.isSuffixOf s.data

/-- Whether a path names a file directly under the applet root
(filepath.Dir(path) == "." for the normalized, separator-free paths the
model works with). -/
def isRootPath (p : FsPath) : Bool :=
  !p.data.contains '/'

/-- The root-level source files fs.WalkDir hands to ensureLoaded: files
directly under the applet root (no separator in the path) whose names end
in the script extension, in the file set's (lexical) order. -/
def rootFiles (fsys : VFS) : List FsPath :=
  (fsys.map (fun e => e.1)).filter (fun p => isRootPath p && hasSuffix p ".star")

/-- An upper bound on the recursion depth of a top-level load: every
source unit is executed at most once and each executed load() statement
is visited at most once, so a generous multiple of the file set's total
size bounds the depth.  Cycle detection fires before the bound does. -/
def loadFuel (fsys : VFS) : Nat :=
  4 * fsys.foldl (fun n f => n + f.2.loads.length + 2) 1

/-- The fs.WalkDir loop of Applet.load: ensure every root-level script
file is loaded, aborting on the first failure. -/
def loadAll (fsys : VFS) : List FsPath → Applet → Except String Applet
  | [], a => .ok a
  | p :: rest, a =>
    match ensureLoaded fsys (loadFuel fsys) p [] a with
    | .error e => .error e
    | .ok a => loadAll fsys rest a

/-- Applet.load: walk the virtual file set's root, loading every script
file; after all root files are processed, the absence of a recorded main
entry point is itself a load failure. -/
def Applet.load (a : Applet) (fsys : VFS) : Except String Applet :=
  match loadAll fsys (rootFiles fsys) a with
  | .error e => .error e
  | .ok a =>
    match a.mainFun with
    | none => .error ("no main() function found in " ++ a.ID)
    | some _ => .ok a

/-- NewAppletFromFS: construct an applet with the given identifier and
optional override loader, then load the file set; construction fails
atomically on any load error. -/
def newAppletFromFS (id : String) (fsys : VFS) (loader : Option OverrideLoader) :
    Except String Applet :=
  Applet.load { ID := id, loader := loader } fsys

/-- NewApplet: wrap a single source blob in a virtual file set whose one
file is named after the identifier (adding the script extension when
missing) and construct the applet from it. -/
def newApplet (id : String) (src : SourceFile) (loader : Option OverrideLoader) :
    Except String Applet :=
  let fn := if hasSuffix id ".star" then id else id ++ ".star"
  newAppletFromFS id [(fn, src)] loader

/-- GetSchema: the cached schema JSON, produced once at load time;
string(nil) is the empty string when no schema was recorded. -/
def Applet.GetSchema (app : Applet) : String :=
  app.schemaJSON

/-- A render root, abstracted: the engine only collects the roots that
Rootable values convert to (render.Root is external rendering data). -/
abbrev RenderRoot := Nat

/-- The config mapping passed to RunWithConfig (map[string]string; a nil
map and an empty map carry the same entries). -/
abbrev RunConfig := List (String × String)

/-- AppletConfig(config): the config mapping as a starlark dict value. -/
def appletConfig (config : RunConfig) : StarValue :=
  .dict config

/-- The argument tuple RunWithConfig builds for the main entry point: the
config dict as the single positional argument exactly when main declares
at least one parameter, and no arguments otherwise. -/
def mainArgs (mainFun : FuncVal) (config : RunConfig) : List StarValue :=
  if mainFun.numParams > 0 then [appletConfig config] else []

/-- The element-wise conversion loop over a returned list: each element
must be Rootable and is converted in order; the first element that is not
fails with the error naming the element's type and its index. -/
def rootifyList (elems : List StarValue) (i : Nat) : GoResult (List RenderRoot) :=
  match elems with
  | [] => .ok []
  | .rootable _ r :: rest =>
    match rootifyList rest (i + 1) with
    | .ok roots => .ok (r :: roots)
    | e => e
  | v :: _ =>
    .goError ("expected app implementation to return Root(s) but found: "
      ++ v.typeName ++ " (at index " ++ toString i ++ ")")

/-- Result typing of the main entry point's return value: a Rootable
value yields a single-element root list; a starlark list is converted
element-wise; anything else is a type error naming the value's type. -/
def rootify (v : StarValue) : GoResult (List RenderRoot) :=
  match v with
  | .rootable _ r => .ok [r]
  | .list elems => rootifyList elems 0
  | v => .goError ("expected app implementation to return Root(s) but found: " ++ v.typeName)

/-- The tail of RunWithConfig: a Call error is returned as is, a value is
normalized by the result-typing logic. -/
def runResult : GoResult StarValue → GoResult (List RenderRoot)
  | .panicked m => .panicked m
  | .goError e => .goError e
  | .ok v => rootify v

/-- RunWithConfig: build the argument tuple for the main entry point
(inspecting its declared parameter count), invoke it through Call, and
normalize the returned value into render roots.  The interp argument is
the external interpreter's outcome for the invocation, as a function of
the arguments passed.  Dereferencing mainFun on an applet that recorded
no entry point would be a nil-pointer fault (load prevents this). -/
def Applet.RunWithConfig (a : Applet) (config : RunConfig)
    (interp : List StarValue → InterpOutcome) : GoResult (List RenderRoot) :=
  match a.mainFun with
  | none => .panicked "runtime error: invalid memory address or nil pointer dereference"
  | some mainFun =>
    let args := mainArgs mainFun config
    runResult (a.Call mainFun args (interp args))

/-- Run: RunWithConfig with a nil config mapping. -/
def Applet.Run (a : Applet) (interp : List StarValue → InterpOutcome) :
    GoResult (List RenderRoot) :=
  a.RunWithConfig [] interp

/-- The outcome of CallSchemaHandler, which in Go returns a (result,
error) pair — every error return site of the source pairs the error with
an empty result string — and which, having no deferred recover of its
own, can also fault (panic). -/
inductive HandlerResult where
  | ok (result : String)
  | err (result : String) (msg : String)
  | panicked (msg : String)
deriving Repr, DecidableEq

/-- CallSchemaHandler: look the handler up in the Schema's handler table
(the field access app.schema.Handlers faults when no schema was ever
recorded, since app.schema is a nil pointer); absence of the name is an
error naming the unknown handler.  Invoke the registered function through
Call with the single string parameter, and encode the result according to
the declared return kind: an option list is JSON-encoded, a nested schema
is re-parsed through the schema package and serialized, and a plain
string is returned as is; a non-string-like value under the plain-string
kind is an error naming the handler's function.  The oc argument is the
external interpreter's outcome for the handler invocation. -/
def Applet.CallSchemaHandler (app : Applet) (handlerName parameter : String)
    (oc : InterpOutcome) : HandlerResult :=
  match app.schema with
  | none => .panicked "runtime error: invalid memory address or nil pointer dereference"
  | some sch =>
    match sch.handlers.lookup handlerName with
    | none => .err "" ("no exported handler named \x27" ++ handlerName ++ "\x27")
    | some handler =>
      match app.Call handler.function [.str parameter] oc with
      | .panicked m => .panicked m
      | .goError e => .err "" ("calling schema handler " ++ handlerName ++ ": " ++ e)
      | .ok resultVal =>
        match handler.returnType with
        | .returnOptions =>
          match encodeOptions resultVal with
          | .error e => .err "" e
          | .ok options => .ok options
        | .returnSchema =>
          match schemaFromStarlark resultVal ((app.globals.lookup app.schemaFile).getD []) with
          | .error e => .err "" e
          | .ok sch =>
            -- json.Marshal error branch is unrepresentable for the
            -- modelled serialization
            .ok (schemaToJSON sch)
        | .returnString =>
          match resultVal.asString with
          | none =>
            .err "" ("expected " ++ handler.function.name
              ++ " to return a string or string-like value")
          | some str => .ok str

/-- Substring containment on the underlying character lists, used to state
what an error message does or does not name. -/
def strContains (s pattern : String) : Bool :=
  decide (pattern.data <:+: s.data)

/-- A one-parameter main function used by concrete instances. -/
def wMainFun : FuncVal := { name := "main", position := "app.star:10:5", numParams := 1 }

/-- A zero-parameter main function used by concrete instances. -/
def wMainFun0 : FuncVal := { name := "main", position := "app.star:10:5", numParams := 0 }

/-- A handler function used by concrete instances. -/
def wHandlerFun : FuncVal := { name := "foobar", position := "app.star:3:1", numParams := 1 }

/-- A schema with one plain-string handler, used by concrete instances. -/
def wSchemaVal : SchemaVal :=
  { handlers := [("h", { function := wHandlerFun, returnType := .returnString })] }

/-- A loaded applet with a main entry point and the one-handler schema,
used by concrete instances. -/
def wApp : Applet :=
  { ID := "app"
    globals := [("app.star", [("main", .func wMainFun)])]
    mainFile := "app.star"
    mainFun := some wMainFun
    schemaFile := "app.star"
    schema := some wSchemaVal
    schemaJSON := schemaToJSON wSchemaVal }

/-- A loaded applet whose sources had no schema constructor, so no Schema
value was ever recorded. -/
def wAppNoSchema : Applet :=
  { ID := "app"
    globals := [("app.star", [("main", .func wMainFun)])]
    mainFile := "app.star"
    mainFun := some wMainFun }

/-- C7: any panic raised inside the interpreter invocation of Applet.Call
is caught by the recovery boundary and converted into a structured call
error naming the applet identifier and the captured panic message; Call
never lets a panic propagate to its caller. -/
theorem C7_call_recovers_panics (a : Applet) (f : FuncVal) (args : List StarValue)
    (oc : InterpOutcome) :
    (∀ m, a.Call f args oc ≠ .panicked m) ∧
    (∀ m, oc = .panic m →
      a.Call f args oc = .goError ("panic while running " ++ a.ID ++ ": " ++ m)) := by
  constructor
  · intro m
    cases oc <;> simp [Applet.Call, rawCall, goRecover]
  · rintro m rfl
    rfl

/-- Witness for C7 at a concrete applet and panic message. -/
theorem C7_witness :
    Applet.Call { ID := "app" } wHandlerFun [] (.panic "boom")
      = .goError "panic while running app: boom" := by
  have h := (C7_call_recovers_panics { ID := "app" } wHandlerFun [] (.panic "boom")).2 "boom" rfl
  exact h

/-- C10: when the main entry point declares zero parameters, RunWithConfig
invokes it with no arguments, silently ignoring any supplied config; the
config dict is passed as the single positional argument exactly when main
declares at least one parameter. -/
theorem C10_config_argument (f : FuncVal) (config : RunConfig) :
    (f.numParams = 0 → mainArgs f config = []) ∧
    (0 < f.numParams → mainArgs f config = [appletConfig config]) ∧
    (∀ (a : Applet) (interp : List StarValue → InterpOutcome), a.mainFun = some f →
      a.RunWithConfig config interp
        = runResult (a.Call f (mainArgs f config) (interp (mainArgs f config)))) := by
  refine ⟨fun h => by simp [mainArgs, h], fun h => by simp [mainArgs, h],
    fun a interp h => by simp [Applet.RunWithConfig, h]⟩

/-- Witness for C10: a zero-parameter main is invoked with no arguments
even under a non-empty config, a one-parameter main receives the config
dict. -/
theorem C10_witness :
    mainArgs wMainFun0 [("k", "v")] = [] ∧
    mainArgs wMainFun [("k", "v")] = [appletConfig [("k", "v")]] := by
  exact ⟨(C10_config_argument wMainFun0 [("k", "v")]).1 rfl,
    (C10_config_argument wMainFun [("k", "v")]).2.1 (by decide)⟩

/-- C5: a handler name absent from the schema's handler table makes
CallSchemaHandler return the error naming exactly that handler together
with an empty result string, and the result does not depend on the
interpreter outcome, i.e. no handler function is ever invoked. -/
theorem C5_unknown_handler (app : Applet) (sch : SchemaVal)
    (handlerName parameter : String) (oc : InterpOutcome)
    (hs : app.schema = some sch) (hl : sch.handlers.lookup handlerName = none) :
    app.CallSchemaHandler handlerName parameter oc
      = .err "" ("no exported handler named \x27" ++ handlerName ++ "\x27") ∧
    (∀ oc', app.CallSchemaHandler handlerName parameter oc
      = app.CallSchemaHandler handlerName parameter oc') := by
  constructor
  · simp [Applet.CallSchemaHandler, hs, hl]
  · intro oc'
    simp [Applet.CallSchemaHandler, hs, hl]

/-- Witness for C5 at a concrete applet and unknown handler name. -/
theorem C5_witness :
    wApp.CallSchemaHandler "nope" "x" (.value (.str "y"))
      = .err "" "no exported handler named \x27nope\x27" := by
  exact (C5_unknown_handler wApp wSchemaVal "nope" "x" (.value (.str "y")) rfl (by decide)).1

/-- C9: on an applet constructed without a schema constructor, any
CallSchemaHandler call dereferences the absent schema and faults instead
of returning the unknown-handler error. -/
theorem C9_missing_schema_faults (app : Applet) (handlerName parameter : String)
    (oc : InterpOutcome) (hs : app.schema = none) :
    app.CallSchemaHandler handlerName parameter oc
      = .panicked "runtime error: invalid memory address or nil pointer dereference" ∧
    (∀ e, app.CallSchemaHandler handlerName parameter oc ≠ .err "" e) := by
  simp [Applet.CallSchemaHandler, hs]

/-- Witness for C9 at a concrete schema-less applet. -/
theorem C9_witness :
    wAppNoSchema.CallSchemaHandler "h" "x" (.value (.str "y"))
      = .panicked "runtime error: invalid memory address or nil pointer dereference" := by
  exact (C9_missing_schema_faults wAppNoSchema "h" "x" (.value (.str "y")) rfl).1

/-- C6: module resolution consults the configured override loader first
and returns its result on success; on any override error it falls through
to the built-in table; and a name matching no built-in module, with no
override success, fails with the invalid-module error naming the
requested import. -/
theorem C6_module_registry (a : Applet) (l : OverrideLoader) (module : String)
    (mod : Exports) (e : String) :
    (a.loader = some l → l module = .ok mod → a.loadModule module = .ok mod) ∧
    (a.loader = some l → l module = .error e →
      a.loadModule module = builtinLoadModule module) ∧
    (a.loader = none → a.loadModule module = builtinLoadModule module) ∧
    (module ∉ builtinModuleNames →
      builtinLoadModule module = .error ("invalid module: " ++ module)) ∧
    (a.loader = some l → l module = .error e → module ∉ builtinModuleNames →
      a.loadModule module = .error ("invalid module: " ++ module)) := by
  have hbuiltin : module ∉ builtinModuleNames →
      builtinLoadModule module = .error ("invalid module: " ++ module) := by
    intro hm
    unfold builtinLoadModule
    split <;> simp_all [builtinModuleNames]
  refine ⟨fun h1 h2 => by simp [Applet.loadModule, h1, h2],
    fun h1 h2 => by simp [Applet.loadModule, h1, h2],
    fun h => by simp [Applet.loadModule, h],
    hbuiltin,
    fun h1 h2 h3 => by simp [Applet.loadModule, h1, h2, hbuiltin h3]⟩

/-- Witness for C6: an override failure on an unknown name surfaces the
invalid-module error, and an override success is returned as is. -/
theorem C6_witness :
    Applet.loadModule { ID := "x", loader := some (fun _ => .error "boom") } "nope.star"
      = .error "invalid module: nope.star" ∧
    Applet.loadModule { ID := "x", loader := some (fun _ => .ok [("m", .module "m")]) } "custom"
      = .ok [("m", .module "m")] := by
  constructor
  · exact (C6_module_registry { ID := "x", loader := some (fun _ => .error "boom") }
      (fun _ => .error "boom") "nope.star" [] "boom").2.2.2.2 rfl rfl (by decide)
  · exact (C6_module_registry { ID := "x", loader := some (fun _ => .ok [("m", .module "m")]) }
      (fun _ => .ok [("m", .module "m")]) "custom" [("m", .module "m")] "").1 rfl rfl

/-- C4 counterexample: a plain-string handler whose function returns a
non-string value (of starlark type NoneType) fails with an error that
names the handler's function but does not contain the observed value's
type anywhere in the message, contradicting the claim that the error
names the actual type observed. -/
theorem C4_counterexample :
    wApp.CallSchemaHandler "h" "x" (.value (.other "NoneType"))
      = .err "" "expected foobar to return a string or string-like value" ∧
    strContains "expected foobar to return a string or string-like value"
      (StarValue.other "NoneType").typeName = false := by
  exact ⟨rfl, by decide⟩

/-- C4 (amended): a plain-string handler whose function returns a
non-string-like value fails with the error naming the handler's function
and stating that a string or string-like value was expected; the observed
value's type is not part of the message. -/
theorem C4_plain_string_mismatch (app : Applet) (sch : SchemaVal)
    (handlerName parameter : String) (handler : HandlerReg) (v : StarValue)
    (hs : app.schema = some sch) (hl : sch.handlers.lookup handlerName = some handler)
    (hk : handler.returnType = .returnString) (hv : v.asString = none) :
    app.CallSchemaHandler handlerName parameter (.value v)
      = .err "" ("expected " ++ handler.function.name
        ++ " to return a string or string-like value") := by
  simp [Applet.CallSchemaHandler, hs, hl, hk, hv, Applet.Call, rawCall, goRecover]

/-- Witness for the amended C4 at a concrete applet and handler. -/
theorem C4_witness :
    wApp.CallSchemaHandler "h" "x" (.value (.dict []))
      = .err "" "expected foobar to return a string or string-like value" := by
  exact C4_plain_string_mismatch wApp wSchemaVal "h" "x"
    { function := wHandlerFun, returnType := .returnString } (.dict []) rfl (by decide) rfl rfl
lemma rootifyList_all_rootable (items : List (String × Nat)) (i : Nat) :
    rootifyList (items.map (fun p => StarValue.rootable p.1 p.2)) i
      = .ok (items.map (fun p => p.2)) := by
  induction items generalizing i with
  | nil => rfl
  | cons hd tl ih => simp [rootifyList, ih]

lemma rootifyList_first_offender (pre : List (String × Nat)) (v : StarValue)
    (post : List StarValue) (i : Nat) (hv : v.isRootable = false) :
    rootifyList (pre.map (fun p => StarValue.rootable p.1 p.2) ++ v :: post) i
      = .goError ("expected app implementation to return Root(s) but found: "
        ++ v.typeName ++ " (at index " ++ toString (i + pre.length) ++ ")") := by
  induction pre generalizing i with
  | nil => cases v <;> simp_all [rootifyList, StarValue.isRootable]
  | cons hd tl ih =>
    have harith : i + 1 + tl.length = i + (tl.length + 1) := by omega
    simp [rootifyList, ih (i + 1), harith]

/-- C1: result typing of Run (RunWithConfig): a Rootable return value
yields a single-element root list; a list whose every element is Rootable
is converted element-wise in order; any other return value fails with a
type error naming the returned value's type; and a list whose first
non-Rootable element sits behind a Rootable prefix fails with an error
identifying that element's type and index. -/
theorem C1_run_result_typing (a : Applet) (f : FuncVal) (config : RunConfig)
    (interp : List StarValue → InterpOutcome) (hm : a.mainFun = some f) :
    (∀ tn r, interp (mainArgs f config) = .value (.rootable tn r) →
      a.RunWithConfig config interp = .ok [r]) ∧
    (∀ items : List (String × Nat),
      interp (mainArgs f config)
        = .value (.list (items.map (fun p => StarValue.rootable p.1 p.2))) →
      a.RunWithConfig config interp = .ok (items.map (fun p => p.2))) ∧
    (∀ v : StarValue, interp (mainArgs f config) = .value v →
      v.isRootable = false → (∀ elems, v ≠ .list elems) →
      a.RunWithConfig config interp
        = .goError ("expected app implementation to return Root(s) but found: "
          ++ v.typeName)) ∧
    (∀ (pre : List (String × Nat)) (v : StarValue) (post : List StarValue),
      interp (mainArgs f config)
        = .value (.list (pre.map (fun p => StarValue.rootable p.1 p.2) ++ v :: post)) →
      v.isRootable = false →
      a.RunWithConfig config interp
        = .goError ("expected app implementation to return Root(s) but found: "
          ++ v.typeName ++ " (at index " ++ toString pre.length ++ ")")) := by
  refine ⟨?_, ?_, ?_, ?_⟩
  · intro tn r h
    simp [Applet.RunWithConfig, hm, h, Applet.Call, rawCall, goRecover, runResult, rootify]
  · intro items h
    simp [Applet.RunWithConfig, hm, h, Applet.Call, rawCall, goRecover, runResult, rootify,
      rootifyList_all_rootable]
  · intro v h hroot hlist
    cases v <;> simp_all [Applet.RunWithConfig, hm, Applet.Call, rawCall, goRecover, runResult,
      rootify, StarValue.isRootable]
  · intro pre v post h hv
    simp [Applet.RunWithConfig, hm, h, Applet.Call, rawCall, goRecover, runResult, rootify,
      rootifyList_first_offender pre v post 0 hv]

/-- Witness for C1: a Rootable return yields one root, an all-Rootable
list converts element-wise in order, a non-Rootable non-list return fails
naming its type, and a three-element list whose second element is
non-conforming fails naming index 1. -/
theorem C1_witness :
    wApp.RunWithConfig [] (fun _ => .value (.rootable "Root" 7)) = .ok [7] ∧
    wApp.RunWithConfig [] (fun _ => .value (.list [.rootable "Root" 1, .rootable "Root" 2]))
      = .ok [1, 2] ∧
    wApp.RunWithConfig [] (fun _ => .value (.other "NoneType"))
      = .goError "expected app implementation to return Root(s) but found: NoneType" ∧
    wApp.RunWithConfig []
        (fun _ => .value (.list [.rootable "Root" 1, .str "x", .rootable "Root" 3]))
      = .goError "expected app implementation to return Root(s) but found: string (at index 1)" := by
  refine ⟨?_, ?_, ?_, ?_⟩
  · exact (C1_run_result_typing wApp wMainFun []
      (fun _ => .value (.rootable "Root" 7)) rfl).1 "Root" 7 rfl
  · exact (C1_run_result_typing wApp wMainFun []
      (fun _ => .value (.list [.rootable "Root" 1, .rootable "Root" 2])) rfl).2.1
      [("Root", 1), ("Root", 2)] rfl
  · exact (C1_run_result_typing wApp wMainFun []
      (fun _ => .value (.other "NoneType")) rfl).2.2.1 (.other "NoneType") rfl rfl
      (fun elems h => by cases h)
  · exact (C1_run_result_typing wApp wMainFun []
      (fun _ => .value (.list [.rootable "Root" 1, .str "x", .rootable "Root" 3])) rfl).2.2.2
      [("Root", 1)] (.str "x") [.rootable "Root" 3] rfl rfl

lemma intercalate_two (sep x y : String) : String.intercalate sep [x, y] = x ++ sep ++ y := rfl

lemma ne_empty_of_star_suffix (s : String) (h : hasSuffix s ".star" = true) : (s != "") = true := by
  rcases eq_or_ne s "" with rfl | hne
  · exact absurd h (by decide)
  · simp [bne_iff_ne, hne]

lemma two_cycle_trace (fsys : VFS) (pA pB : FsPath) (fA fB : SourceFile) (a : Applet) (fuel : Nat)
    (hgA : a.globals.lookup pA = none) (hgB : a.globals.lookup pB = none)
    (hlookA : fsys.lookup pA = some fA) (hlookB : fsys.lookup pB = some fB)
    (hA : fA.loads = [pB]) (hB : fB.loads = [pA]) (hne : pA ≠ pB) :
    loaderStep fsys (fuel + 1 + 1 + 1 + 1 + 1) (.ensure pA) [] a
      = .error ("starlark.ExecFile: cannot load " ++ pB ++ ": starlark.ExecFile: cannot load "
        ++ pA ++ ": circular dependency detected: " ++ pA ++ " -> " ++ pB ++ " -> " ++ pA) := by
  have hBA : (pB == pA) = false := beq_eq_false_iff_ne.mpr (Ne.symm hne)
  have hAA : (pA == pA) = true := beq_self_eq_true pA
  simp [loaderStep, cleanPath, hgA, hgB, hlookA, hlookB, hA, hB, hBA, hAA,
    List.contains, List.elem, intercalate_two, String.append_assoc]
  rfl

lemma intercalate_three (sep x y z : String) :
    String.intercalate sep [x, y, z] = x ++ sep ++ y ++ sep ++ z := rfl

lemma three_cycle_trace (fsys : VFS) (pA pB pC : FsPath) (fA fB fC : SourceFile) (a : Applet)
    (fuel : Nat)
    (hgA : a.globals.lookup pA = none) (hgB : a.globals.lookup pB = none)
    (hgC : a.globals.lookup pC = none)
    (hlookA : fsys.lookup pA = some fA) (hlookB : fsys.lookup pB = some fB)
    (hlookC : fsys.lookup pC = some fC)
    (hA : fA.loads = [pB]) (hB : fB.loads = [pC]) (hC : fC.loads = [pA])
    (hAB : pA ≠ pB) (hAC : pA ≠ pC) (hBC : pB ≠ pC) :
    loaderStep fsys (fuel + 1 + 1 + 1 + 1 + 1 + 1 + 1) (.ensure pA) [] a
      = .error ("starlark.ExecFile: cannot load " ++ pB ++ ": starlark.ExecFile: cannot load "
        ++ pC ++ ": starlark.ExecFile: cannot load " ++ pA
        ++ ": circular dependency detected: "
        ++ pA ++ " -> " ++ pB ++ " -> " ++ pC ++ " -> " ++ pA) := by
  have hBA : (pB == pA) = false := beq_eq_false_iff_ne.mpr (Ne.symm hAB)
  have hCA : (pC == pA) = false := beq_eq_false_iff_ne.mpr (Ne.symm hAC)
  have hCB : (pC == pB) = false := beq_eq_false_iff_ne.mpr (Ne.symm hBC)
  have hAA : (pA == pA) = true := beq_self_eq_true pA
  simp [loaderStep, cleanPath, hgA, hgB, hgC, hlookA, hlookB, hlookC, hA, hB, hC,
    hBA, hCA, hCB, hAA, List.contains, List.elem, intercalate_three, String.append_assoc]
  rfl

/-- C2: two source units that import each other make loading fail with a
circular-dependency error whose message enumerates the full load chain
in import order, containing both paths; a three-unit cycle likewise
fails with the full three-hop chain. -/
theorem C2_full (id : String) (loader : Option OverrideLoader)
    (pA pB pC : FsPath) (fA fB fC : SourceFile) :
    (isRootPath pA = true → hasSuffix pA ".star" = true → pA ≠ pB →
      fA.loads = [pB] → fB.loads = [pA] →
      newAppletFromFS id [(pA, fA), (pB, fB)] loader
        = .error ("starlark.ExecFile: cannot load " ++ pB ++ ": starlark.ExecFile: cannot load "
          ++ pA ++ ": circular dependency detected: " ++ pA ++ " -> " ++ pB ++ " -> " ++ pA)) ∧
    (isRootPath pA = true → hasSuffix pA ".star" = true →
      pA ≠ pB → pA ≠ pC → pB ≠ pC →
      fA.loads = [pB] → fB.loads = [pC] → fC.loads = [pA] →
      newAppletFromFS id [(pA, fA), (pB, fB), (pC, fC)] loader
        = .error ("starlark.ExecFile: cannot load " ++ pB ++ ": starlark.ExecFile: cannot load "
          ++ pC ++ ": starlark.ExecFile: cannot load " ++ pA
          ++ ": circular dependency detected: "
          ++ pA ++ " -> " ++ pB ++ " -> " ++ pC ++ " -> " ++ pA)) := by
  constructor
  · intro hAr hAs hne hA hB
    have hroot : rootFiles [(pA, fA), (pB, fB)] = pA :: List.filter (fun p => isRootPath p && hasSuffix p ".star") [pB] := by
      simp [rootFiles, hAr, hAs]
    have hfuel : loadFuel [(pA, fA), (pB, fB)] = 23 + 1 + 1 + 1 + 1 + 1 := by
      norm_num [loadFuel, hA, hB]
    have htrace := two_cycle_trace [(pA, fA), (pB, fB)] pA pB fA fB
      { ID := id, loader := loader } 23 rfl rfl (by simp [List.lookup])
      (by simp [List.lookup, beq_eq_false_iff_ne.mpr (Ne.symm hne)]) hA hB hne
    simp [newAppletFromFS, Applet.load, loadAll, ensureLoaded, hroot, hfuel, htrace]
  · intro hAr hAs hAB hAC hBC hA hB hC
    have hroot : rootFiles [(pA, fA), (pB, fB), (pC, fC)]
        = pA :: List.filter (fun p => isRootPath p && hasSuffix p ".star") [pB, pC] := by
      simp [rootFiles, hAr, hAs]
    have hfuel : loadFuel [(pA, fA), (pB, fB), (pC, fC)]
        = 33 + 1 + 1 + 1 + 1 + 1 + 1 + 1 := by
      norm_num [loadFuel, hA, hB, hC]
    have htrace := three_cycle_trace [(pA, fA), (pB, fB), (pC, fC)] pA pB pC fA fB fC
      { ID := id, loader := loader } 33 rfl rfl rfl (by simp [List.lookup])
      (by simp [List.lookup, beq_eq_false_iff_ne.mpr (Ne.symm hAB)])
      (by simp [List.lookup, beq_eq_false_iff_ne.mpr (Ne.symm hAC),
        beq_eq_false_iff_ne.mpr (Ne.symm hBC)])
      hA hB hC hAB hAC hBC
    simp [newAppletFromFS, Applet.load, loadAll, ensureLoaded, hroot, hfuel, htrace]

/-- C3: two root files both exporting a main function make construction
fail with a duplicate-main error naming both files; with exactly one such
file (and otherwise valid sources) construction succeeds and records that
file's main; with no main function at all, construction fails with the
no-main load error. -/
theorem C3_entry_point (id : String) (loader : Option OverrideLoader)
    (pA pB : FsPath) (fA fB : SourceFile) (f g : FuncVal)
    (hAr : isRootPath pA = true) (hAs : hasSuffix pA ".star" = true)
    (hBr : isRootPath pB = true) (hBs : hasSuffix pB ".star" = true)
    (hne : pA ≠ pB)
    (hAl : fA.loads = []) (hAe : fA.execError = none)
    (hBl : fB.loads = []) (hBe : fB.execError = none)
    (hAsch : getFunction fA.exports schemaFunctionName = none)
    (hBsch : getFunction fB.exports schemaFunctionName = none) :
    (getFunction fA.exports "main" = some f → getFunction fB.exports "main" = some g →
      newAppletFromFS id [(pA, fA), (pB, fB)] loader
        = .error ("multiple files with a main() function:\n- " ++ pB ++ "\n- " ++ pA)) ∧
    (getFunction fA.exports "main" = some f → getFunction fB.exports "main" = none →
      (newAppletFromFS id [(pA, fA), (pB, fB)] loader).map (fun a => (a.mainFile, a.mainFun))
        = .ok (pA, some f)) ∧
    (getFunction fA.exports "main" = none → getFunction fB.exports "main" = none →
      newAppletFromFS id [(pA, fA), (pB, fB)] loader
        = .error ("no main() function found in " ++ id)) := by
  have hBA : (pB == pA) = false := beq_eq_false_iff_ne.mpr (Ne.symm hne)
  have hroot : rootFiles [(pA, fA), (pB, fB)] = [pA, pB] := by
    simp [rootFiles, hAr, hAs, hBr, hBs]
  have hfuel : loadFuel [(pA, fA), (pB, fB)] = 18 + 1 + 1 := by
    norm_num [loadFuel, hAl, hBl]
  have hdupA : (pA != "") = true := ne_empty_of_star_suffix pA hAs
  refine ⟨?_, ?_, ?_⟩
  · intro hfa hfb
    simp [newAppletFromFS, Applet.load, loadAll, ensureLoaded, hroot, hfuel, loaderStep,
      cleanPath, List.lookup, hBA, hAl, hAe, hBl, hBe, finishFile, finishSchema,
      hfa, hfb, hAsch, hBsch, hdupA]
  · intro hfa hfb
    simp [newAppletFromFS, Applet.load, loadAll, ensureLoaded, hroot, hfuel, loaderStep,
      cleanPath, List.lookup, hBA, hAl, hAe, hBl, hBe, finishFile, finishSchema,
      hfa, hfb, hAsch, hBsch, Except.map]
  · intro hfa hfb
    simp [newAppletFromFS, Applet.load, loadAll, ensureLoaded, hroot, hfuel, loaderStep,
      cleanPath, List.lookup, hBA, hAl, hAe, hBl, hBe, finishFile, finishSchema,
      hfa, hfb, hAsch, hBsch]

/-- A source unit that participates in a two-file import cycle. -/
def wCycleA : SourceFile :=
  { loads := ["b.star"], execError := none, exports := [],
    schemaCall := .value (.other "NoneType") }

/-- The other half of the two-file import cycle. -/
def wCycleB : SourceFile :=
  { loads := ["a.star"], execError := none, exports := [],
    schemaCall := .value (.other "NoneType") }

/-- Witness for C2: loading the concrete pair a.star and b.star, each
importing the other, fails with the chain a.star -> b.star -> a.star. -/
theorem C2_witness :
    newAppletFromFS "app" [("a.star", wCycleA), ("b.star", wCycleB)] none
      = .error "starlark.ExecFile: cannot load b.star: starlark.ExecFile: cannot load a.star: circular dependency detected: a.star -> b.star -> a.star" := by
  exact (C2_full "app" none "a.star" "b.star" "c.star" wCycleA wCycleB wCycleA).1
    (by decide) (by decide) (by decide) rfl rfl

/-- A root source unit exporting only a main function. -/
def wMainFile : SourceFile :=
  { loads := [], execError := none, exports := [("main", .func wMainFun)],
    schemaCall := .value (.other "NoneType") }

/-- A root source unit exporting nothing of interest. -/
def wEmptyFile : SourceFile :=
  { loads := [], execError := none, exports := [],
    schemaCall := .value (.other "NoneType") }

/-- Witness for C3: two concrete main-exporting files fail naming both, a
unique main loads successfully, and main-less sources fail with the
no-main error. -/
theorem C3_witness :
    newAppletFromFS "app" [("a.star", wMainFile), ("b.star", wMainFile)] none
      = .error "multiple files with a main() function:\n- b.star\n- a.star" ∧
    (newAppletFromFS "app" [("a.star", wMainFile), ("b.star", wEmptyFile)] none).map
        (fun a => (a.mainFile, a.mainFun)) = .ok ("a.star", some wMainFun) ∧
    newAppletFromFS "app" [("a.star", wEmptyFile), ("b.star", wEmptyFile)] none
      = .error "no main() function found in app" := by
  refine ⟨?_, ?_, ?_⟩
  · exact (C3_entry_point "app" none "a.star" "b.star" wMainFile wMainFile wMainFun wMainFun
      (by decide) (by decide) (by decide) (by decide) (by decide)
      rfl rfl rfl rfl (by decide) (by decide)).1 (by decide) (by decide)
  · exact (C3_entry_point "app" none "a.star" "b.star" wMainFile wEmptyFile wMainFun wMainFun
      (by decide) (by decide) (by decide) (by decide) (by decide)
      rfl rfl rfl rfl (by decide) (by decide)).2.1 (by decide) (by decide)
  · exact (C3_entry_point "app" none "a.star" "b.star" wEmptyFile wEmptyFile wMainFun wMainFun
      (by decide) (by decide) (by decide) (by decide) (by decide)
      rfl rfl rfl rfl (by decide) (by decide)).2.2 (by decide) (by decide)

/-- C8: applet construction is a deterministic function of the identifier,
virtual file set and options, so two constructions over byte-for-byte
equal file sets return equal cached schema JSON from GetSchema. -/
theorem C8_schema_determinism (id : String) (fsys₁ fsys₂ : VFS)
    (loader : Option OverrideLoader) (h : fsys₁ = fsys₂) :
    (newAppletFromFS id fsys₁ loader).map Applet.GetSchema
      = (newAppletFromFS id fsys₂ loader).map Applet.GetSchema ∧
    (∀ a₁ a₂, newAppletFromFS id fsys₁ loader = .ok a₁ →
      newAppletFromFS id fsys₂ loader = .ok a₂ → a₁.GetSchema = a₂.GetSchema) := by
  subst h
  refine ⟨rfl, fun a₁ a₂ h₁ h₂ => ?_⟩
  rw [h₁] at h₂
  exact congrArg Applet.GetSchema (Except.ok.inj h₂)

/-- The schema-constructor function exported by the schema-ful fixture. -/
def wSchemaFun : FuncVal := { name := "get_schema", position := "app.star:20:1", numParams := 0 }

/-- A one-file set whose unit exports main and a schema constructor that
returns the one-handler schema. -/
def wSchemaFS : VFS :=
  [("app.star",
    { loads := []
      execError := none
      exports := [("main", .func wMainFun), ("get_schema", .func wSchemaFun)]
      schemaCall := .value (.schemaVal wSchemaVal) })]

/-- Witness for C8: two loads of the concrete schema-ful file set agree
on GetSchema, and that common value is the serialized one-handler
schema. -/
theorem C8_witness :
    (∀ a₁ a₂, newAppletFromFS "app" wSchemaFS none = .ok a₁ →
      newAppletFromFS "app" wSchemaFS none = .ok a₂ → a₁.GetSchema = a₂.GetSchema) ∧
    (newAppletFromFS "app" wSchemaFS none).map Applet.GetSchema
      = .ok (schemaToJSON wSchemaVal) := by
  exact ⟨(C8_schema_determinism "app" wSchemaFS wSchemaFS none rfl).2, rfl⟩
